import Mathlib

/-!
# Verification of the managed-storage-account Key Vault sample

A shallow embedding of the two workflow variants in this repository
(the `azure-keyvault`/`ms-rest-azure` variant, called "Old" below, and the
`@azure/*` variant, called "New" below), together with their shared
`sample_util` configuration modules.

The embedding models:
 * environment-variable validation and configuration construction
   (`sample_util.js` lines 16-44 and its older counterpart);
 * vault acquisition (`_getSampleVault` in both utility modules);
 * the nine-step provisioning workflow (`main` and its helpers in both
   sample variants) as a straight-line program over an alphabet of
   remote-capability calls, run against a failure oracle that decides,
   per call position, whether the remote call succeeds or raises an
   error with a given code.

Authentication-challenge callbacks wired inside the vendor key-vault client
(`_getKeyVaultUserClient` / `_getKeyVaultClient`) happen inside SDK calls and
are not separate workflow steps; the explicit credential acquisitions the
sample performs itself (interactive device login, service-principal login,
user token retrieval in the Old variant) are modelled as calls of their own.
-/

namespace KVStorageSample

/-! ## Data model -/

/-- Vault access-policy permission sets (`permissions` objects in the source).
The newer utility module omits the `certificates` field, hence the `Option`. -/
structure Permissions where
  keys : List String
  secrets : List String
  storage : List String
  certificates : Option (List String)
deriving DecidableEq, Repr

/-- An entry of a vault's `properties.accessPolicies` list. -/
structure AccessPolicyEntry where
  tenantId : String
  objectId : String
  permissions : Permissions
deriving DecidableEq, Repr

/-- The part of a vault object the workflow reads or mutates. -/
structure VaultProperties where
  vaultUri : String
  accessPolicies : List AccessPolicyEntry
deriving DecidableEq, Repr

structure Vault where
  name : String
  properties : VaultProperties
deriving DecidableEq, Repr

/-- The part of a storage-account object the workflow reads. -/
structure StorageAccount where
  name : String
  id : String
  /-- Field `identity.principalId` of the system-assigned identity (New variant). -/
  identityPrincipalId : String
deriving DecidableEq, Repr

/-! ## Environment validation and configuration (`sample_util`) -/

/-- The raw environment as seen by `process.env`: `none` means the variable
is unset, `some s` that it is set to the string `s`. -/
structure EnvVars where
  subscriptionId : Option String
  tenantId : Option String
  clientId : Option String
  clientOid : Option String
  clientSecret : Option String
  sampleVaultName : Option String
  location : Option String
  resourceGroup : Option String
deriving DecidableEq, Repr

/-- JavaScript truthiness of an environment value: `!process.env[x]` holds
when the variable is unset or set to the empty string. -/
def jsTruthy : Option String → Bool
  | none => false
  | some s => !(s == "")

/-- JavaScript `process.env[x] || dflt`. -/
def jsOr (v : Option String) (dflt : String) : String :=
  match v with
  | none => dflt
  | some s => if s == "" then dflt else s

/-- The `envs` list built by the validation block at the top of both
utility modules (sample_util.js lines 17-22, old counterpart lines 19-24):
one push per falsy required variable, in source order. -/
def missingEnvs (e : EnvVars) : List String :=
  (if jsTruthy e.subscriptionId then [] else ["AZURE_SUBSCRIPTION_ID"]) ++
  (if jsTruthy e.tenantId then [] else ["AZURE_TENANT_ID"]) ++
  (if jsTruthy e.clientId then [] else ["AZURE_CLIENT_ID"]) ++
  (if jsTruthy e.clientOid then [] else ["AZURE_CLIENT_OID"]) ++
  (if jsTruthy e.clientSecret then [] else ["AZURE_CLIENT_SECRET"])

/-- JavaScript `Array.prototype.toString`, i.e. `join(",")`. -/
def joinComma : List String → String
  | [] => ""
  | [s] => s
  | s :: rest => s ++ "," ++ joinComma rest

/-- The message produced by `util.format("please set/export the following
environment variables: %s", envs.toString())`. -/
def envErrorMsg (envs : List String) : String :=
  "please set/export the following environment variables: " ++ joinComma envs

/-- A raised JavaScript error, as far as the workflow distinguishes them. -/
inductive JsError where
  /-- A thrown `new Error(message)`. -/
  | error (message : String)
  /-- A strict-mode `ReferenceError: <name> is not defined`. -/
  | referenceError (name : String)
deriving DecidableEq, Repr

/-- The `config` object of the utility modules (the fields the workflow
consumes; the old module's `environment`, `authContext` and `tokenCache`
fields only feed the authentication callbacks and are not modelled). -/
structure Config where
  subscriptionId : String
  tenantId : String
  clientId : String
  objectId : String
  secret : String
  azureLocation : String
  groupName : String
  storageAccName : String
  vaultName : Option String
  /-- Cache field `config.vault`, the per-run cache filled in by `_getSampleVault`. -/
  vault : Option Vault
deriving DecidableEq, Repr

/-- Module-load behaviour of the NEW utility module `sample_util.js`
(lines 16-44): validate the environment, raising an `Error` that lists every
missing variable, then build the `config` object. `genStorageId` stands for
the `random_id()` value appended to `"sa"`. -/
def loadConfig (e : EnvVars) (genStorageId : String) : Except JsError Config :=
  let envs := missingEnvs e
  if envs.length > 0 then
    .error (.error (envErrorMsg envs))
  else
    .ok {
      subscriptionId := e.subscriptionId.getD ""
      tenantId := e.tenantId.getD ""
      clientId := e.clientId.getD ""
      objectId := e.clientOid.getD ""
      secret := e.clientSecret.getD ""
      azureLocation := jsOr e.location "westus"
      groupName := jsOr e.resourceGroup "azure-sample-group"
      storageAccName := "sa" ++ genStorageId
      vaultName := if jsTruthy e.sampleVaultName then e.sampleVaultName else none
      vault := none }

/-- Module-load behaviour of the OLD utility module (src/unnamed/part_002,
lines 18-55). The validation block is identical, but its error branch
evaluates `util.format(...)` and that module never requires `util`: under
`'use strict'` the unbound name raises `ReferenceError: util is not defined`
instead of the enumerating `Error`. -/
def loadConfigOld (e : EnvVars) (genStorageId : String) : Except JsError Config :=
  let envs := missingEnvs e
  if envs.length > 0 then
    .error (.referenceError "util is not defined")
  else
    .ok {
      subscriptionId := e.subscriptionId.getD ""
      tenantId := e.tenantId.getD ""
      clientId := e.clientId.getD ""
      objectId := e.clientOid.getD ""
      secret := e.clientSecret.getD ""
      azureLocation := jsOr e.location "westus"
      groupName := jsOr e.resourceGroup "azure-sample-group"
      storageAccName := "sa" ++ genStorageId
      vaultName := if jsTruthy e.sampleVaultName then e.sampleVaultName else none
      vault := none }

/-! ## The remote-call alphabet

One constructor per outbound capability operation the two samples invoke,
carrying the arguments the claims are about.  `vaultsDelete` and
`storageAccountsDelete` are operations the management SDKs offer that the
samples never call; they are part of the alphabet so that frame properties
("the teardown does not delete the storage account", "the vault itself is
left unchanged") are statements about an alphabet in which the forbidden
operations exist. -/

inductive Call where
  /-- Old variant: `msRestAzure.loginWithServicePrincipalSecret`. -/
  | spLogin
  /-- Old variant: `msRestAzure.interactiveLogin` (device-code login). -/
  | interactiveLogin
  /-- Old variant: `creds.getToken` via `_tokenFromUserCredentials`. -/
  | userGetToken
  /-- Operation `vaults.get(group, name)`. -/
  | vaultsGet (group name : String)
  /-- Operation `resourceGroups.createOrUpdate(group, location)`. -/
  | resourceGroupsCreateOrUpdate (group location : String)
  /-- Vault creation: `vaults.createOrUpdate` /
  `vaults.beginCreateOrUpdateAndWait` called with a fresh name and a
  creation-parameters object carrying the default access-policy list. -/
  | vaultsCreateOrUpdateParams (group name : String)
      (accessPolicies : List AccessPolicyEntry)
  /-- Vault push: the same SDK method called with an existing vault object
  (after the access-policy append in `addStorageAccount`). -/
  | vaultsCreateOrUpdateVault (group name : String) (vault : Vault)
  /-- Operation `vaults.delete` — offered by the SDK, never called by the samples. -/
  | vaultsDelete (group name : String)
  /-- Operation `storageAccounts.create` / `storageAccounts.beginCreateAndWait`. -/
  | storageAccountsCreate (group name kind : String)
  /-- Operation `storageAccounts.delete` — offered by the SDK, never called. -/
  | storageAccountsDelete (group name : String)
  /-- Operation `roleDefinitions.list(scope, filter)`. -/
  | roleDefinitionsList (scope filter : String)
  /-- Operation `roleAssignments.create(scope, name, roleDefinitionId, principalId)`. -/
  | roleAssignmentsCreate (scope assignmentName roleDefinitionId principalId : String)
  /-- New variant: `keysClient.createKey(name, kty)`. -/
  | keysCreateKey (name keyType : String)
  /-- New variant: `storageAccounts.update` with an `encryption` patch;
  `keyName = none` models a patch whose `encryption` carries no
  `keyVaultProperties` (the teardown patch). -/
  | storageAccountsUpdateEncryption (group name keySource : String)
      (keyName : Option String)
  /-- New variant: `storageAccounts.regenerateKey(group, name, { keyName })`. -/
  | storageAccountsRegenerateKey (group name keyName : String)
  /-- New variant: `storageAccounts.listAccountSAS` (SAS issuance). -/
  | listAccountSAS (group name permissions : String)
  /-- Data plane: container creation (`containerClient.create` /
  `createContainerIfNotExists`). -/
  | containerCreate (name : String)
  /-- Data plane: blob upload (`blockBlobClient.upload` /
  `createBlockBlobFromText`). -/
  | blobUpload (container blob content : String)
  /-- Old variant: `akvUserClient.setStorageAccount(vaultUri, name, id,
  activeKeyName, autoRegenerateKey=true, { regenerationPeriod, ... })`. -/
  | setStorageAccount (vaultUri accountName resourceId activeKeyName
      regenerationPeriod : String)
  /-- Old variant: `kvClient.updateStorageAccount` with one of the two
  patches used by the sample. -/
  | kvUpdateStorageAccount (vaultUri accountName : String)
      (activeKeyName : Option String) (autoRegenerateKey : Option Bool)
  /-- Old variant: `regenerateStorageAccountKey(vaultUri, name, keyName)`. -/
  | kvRegenerateStorageAccountKey (vaultUri accountName keyName : String)
  /-- Old variant: `getStorageAccounts(vaultUri)`. -/
  | kvGetStorageAccounts (vaultUri : String)
  /-- Old variant: `setSasDefinition(vaultUri, accName, defName, template,
  scope, validity, ...)`; the locally generated template string is not a
  remote argument of interest and is omitted. -/
  | setSasDefinition (vaultUri accountName defName templateScope
      validityPeriod : String)
  /-- Old variant: `getSecret(vault, name, version)` for the managed SAS
  secret (version is the empty string). -/
  | getSecret (vaultName secretName secretVersion : String)
  /-- Old variant: `getSasDefinitions(vaultUri, accName)`. -/
  | kvGetSasDefinitions (vaultUri accountName : String)
  /-- Old variant: `deleteStorageAccount(vaultUri, accName)` — removes the
  storage account from the vault (the account resource itself remains). -/
  | kvDeleteStorageAccount (vaultUri accountName : String)
deriving DecidableEq, Repr

/-! ## Programs and the failure oracle

Each sample's `main` is a straight line of awaited remote calls; the only
non-sequential control flow is the `try`/`catch` around role-assignment
creation, which swallows exactly the error code `RoleAssignmentExists`.  A
program is therefore a list of steps, each a call plus the set of error
codes the surrounding code recovers from.  The oracle assigns each call
position either success (`none`) or a raised error with the given code. -/

structure PStep where
  call : Call
  /-- Which error codes the code around this call catches and swallows. -/
  recover : String → Bool

/-- A plain awaited call: any raised error propagates. -/
def pstep (c : Call) : PStep := ⟨c, fun _ => false⟩

abbrev Prog := List PStep

def progCalls (p : Prog) : List Call := p.map (fun st => st.call)

/-- Run a program against a failure oracle, starting at call position `k`.
Returns the calls actually issued, in order, and the outcome: a recovered
failure continues with the next step, an unrecovered one stops the run at
once with that error code. -/
def runProg : Prog → (Nat → Option String) → Nat → List Call × Except String Unit
  | [], _, _ => ([], .ok ())
  | st :: rest, o, k =>
    match o k with
    | none =>
      let r := runProg rest o (k + 1)
      (st.call :: r.1, r.2)
    | some code =>
      if st.recover code then
        let r := runProg rest o (k + 1)
        (st.call :: r.1, r.2)
      else
        ([st.call], .error code)

/-- The oracle under which every call succeeds. -/
def noFail : Nat → Option String := fun _ => none

/-- The oracle under which exactly the call at position `n` raises an error
with code `code`. -/
def singleFail (n : Nat) (code : String) : Nat → Option String :=
  fun m => if m = n then some code else none

/-! ## Results of remote calls

Call results the workflow feeds into later calls are drawn from this record
(the remote services and the random generators are outside the repository).
The oracle decides whether a call succeeds; `RemoteEnv` says what a
successful call returns. -/

structure RemoteEnv where
  /-- Result of `vaults.get` (configured-name branch). -/
  gotVault : Vault
  /-- Result of vault creation. -/
  createdVault : Vault
  /-- The `random_id()` value used as the fresh vault name. -/
  genVaultName : String
  /-- Result of storage-account creation. -/
  storageAccount : StorageAccount
  /-- Value `roleList[0].id` from `roleDefinitions.list`. -/
  roleDefinitionId : String
  /-- The `uuidv4()` role-assignment name. -/
  roleAssignmentName : String
  /-- Old variant: `userToken.oid` of the interactively signed-in user. -/
  userOid : String
  /-- Old variant: vault/name parsed from the account-SAS definition's
  `secretId`. -/
  sasSecretVaultName : String
  sasSecretName : String
  /-- Old variant: vault/name parsed from the blob-SAS definition's
  `secretId`. -/
  blobSecretVaultName : String
  blobSecretName : String
deriving DecidableEq, Repr

/-! ## Vault acquisition (`_getSampleVault`) -/

/-- What a call to `_getSampleVault` amounts to: the remote calls it issues,
the utility module's `config` as it stands after a successful return
(`config.vault` caches the result), and the vault returned. -/
structure VaultAcqResult where
  prog : Prog
  cfgAfter : Config
  vault : Vault

def secretsPermListNew : List String :=
  ["get", "list", "set", "delete", "backup", "restore", "recover", "purge"]

def storagePermListNew : List String :=
  ["get", "list", "delete", "set", "update", "regeneratekey", "recover",
   "purge", "backup", "restore", "setsas", "listsas", "getsas", "deletesas"]

/-- The default access policy of `kvParams` in the new `sample_util.js`
(lines 79-89); no `certificates` field. -/
def defaultPolicyNew (cfg : Config) : AccessPolicyEntry :=
  { tenantId := cfg.tenantId
    objectId := cfg.objectId
    permissions :=
      { keys := ["all"]
        secrets := secretsPermListNew
        storage := storagePermListNew
        certificates := none } }

/-- The default access policy of `kvParams` in the old utility module
(part_002 lines 174-185): `all` on all four permission groups. -/
def defaultPolicyOld (cfg : Config) : AccessPolicyEntry :=
  { tenantId := cfg.tenantId
    objectId := cfg.objectId
    permissions :=
      { keys := ["all"]
        secrets := ["all"]
        storage := ["all"]
        certificates := some ["all"] } }

/-- Function `_getSampleVault` of the new `sample_util.js` (lines 52-104): return the
cached vault if present; with a configured name, look the vault up; otherwise
ensure the resource group exists and create a vault under a freshly generated
name.  (`_getManagementCredentials` only constructs a `ClientSecretCredential`
here; it performs no remote call.) -/
def getSampleVaultNew (cfg : Config) (env : RemoteEnv) : VaultAcqResult :=
  match cfg.vault with
  | some v => ⟨[], cfg, v⟩
  | none =>
    match cfg.vaultName with
    | some vn =>
      ⟨[pstep (.vaultsGet cfg.groupName vn)],
       { cfg with vault := some env.gotVault }, env.gotVault⟩
    | none =>
      ⟨[pstep (.resourceGroupsCreateOrUpdate cfg.groupName cfg.azureLocation),
        pstep (.vaultsCreateOrUpdateParams cfg.groupName env.genVaultName
          [defaultPolicyNew cfg])],
       { cfg with vault := some env.createdVault }, env.createdVault⟩

/-- Function `_getSampleVault` of the old utility module (part_002 lines 148-198).
Identical control flow, but `_getManagementCredentials` there is an awaited
`loginWithServicePrincipalSecret`, a remote authentication call issued after
the cache check and before the lookup/create branch. -/
def getSampleVaultOld (cfg : Config) (env : RemoteEnv) : VaultAcqResult :=
  match cfg.vault with
  | some v => ⟨[], cfg, v⟩
  | none =>
    match cfg.vaultName with
    | some vn =>
      ⟨[pstep .spLogin, pstep (.vaultsGet cfg.groupName vn)],
       { cfg with vault := some env.gotVault }, env.gotVault⟩
    | none =>
      ⟨[pstep .spLogin,
        pstep (.resourceGroupsCreateOrUpdate cfg.groupName cfg.azureLocation),
        pstep (.vaultsCreateOrUpdateParams cfg.groupName env.genVaultName
          [defaultPolicyOld cfg])],
       { cfg with vault := some env.createdVault }, env.createdVault⟩

/-! ## The workflow steps -/

/-- The fixed Azure Key Vault service principal (`principalId` of the role
assignment in both variants). -/
def keyVaultServiceOid : String := "93c27d83-f79b-4cb2-8dd4-4aa716542e74"

/-- The role-definition filter string (both variants). -/
def roleFilter : String :=
  "roleName eq \x27Storage Account Key Operator Service Role\x27"

/-- The role-assignment creation step with its `try`/`catch`: the code
rethrows unless `e.code` equals `RoleAssignmentExists`
(part_000 lines 56-63 and 313-320). -/
def roleStep (scope : String) (env : RemoteEnv) : PStep :=
  ⟨.roleAssignmentsCreate scope env.roleAssignmentName env.roleDefinitionId
      keyVaultServiceOid,
   fun code => code == "RoleAssignmentExists"⟩

/-- In-memory mutation `vault.properties.accessPolicies.push(entry)`. -/
def pushPolicy (vault : Vault) (entry : AccessPolicyEntry) : Vault :=
  { vault with properties :=
      { vault.properties with
          accessPolicies := vault.properties.accessPolicies ++ [entry] } }

/-- The access-policy entry appended by the new variant's
`addStorageAccount` (part_000 lines 326-334): the storage account's
system-assigned identity, keys `all`, and the explicit secret/storage lists. -/
def accessPolicyEntryNew (cfg : Config) (env : RemoteEnv) : AccessPolicyEntry :=
  { tenantId := cfg.tenantId
    objectId := env.storageAccount.identityPrincipalId
    permissions :=
      { keys := ["all"]
        secrets := secretsPermListNew
        storage := storagePermListNew
        certificates := none } }

/-- The access-policy entry appended by the old variant's
`addStorageAccount` (part_000 lines 70-79): the signed-in user's object id,
`all` on all four permission groups. -/
def accessPolicyEntryOld (cfg : Config) (env : RemoteEnv) : AccessPolicyEntry :=
  { tenantId := cfg.tenantId
    objectId := env.userOid
    permissions :=
      { keys := ["all"]
        secrets := ["all"]
        storage := ["all"]
        certificates := some ["all"] } }

/-- What a call to `addStorageAccount` amounts to: the remote calls it
issues, the vault object as mutated by the access-policy push, and the
storage account it returns. -/
structure AddResult where
  prog : Prog
  vault : Vault
  account : StorageAccount

/-- Function `addStorageAccount` of the new variant (part_000 lines 285-360). -/
def addStorageAccountNew (cfg : Config) (vault : Vault) (env : RemoteEnv) :
    AddResult :=
  let sa := env.storageAccount
  let vault2 := pushPolicy vault (accessPolicyEntryNew cfg env)
  ⟨[pstep (.storageAccountsCreate cfg.groupName cfg.storageAccName "StorageV2"),
    pstep (.roleDefinitionsList "/" roleFilter),
    roleStep sa.id env,
    pstep (.vaultsCreateOrUpdateVault cfg.groupName vault.name vault2),
    pstep (.keysCreateKey "key1" "RSA"),
    pstep (.storageAccountsUpdateEncryption cfg.groupName sa.name
      "Microsoft.Keyvault" (some "key1"))],
   vault2, sa⟩

/-- Function `addStorageAccount` of the old variant (part_000 lines 21-98): device
login first, then creation, role grant, service-principal login, user-token
retrieval, vault push, and registration via `setStorageAccount`. -/
def addStorageAccountOld (cfg : Config) (vault : Vault) (env : RemoteEnv) :
    AddResult :=
  let sa := env.storageAccount
  let vault2 := pushPolicy vault (accessPolicyEntryOld cfg env)
  ⟨[pstep .interactiveLogin,
    pstep (.storageAccountsCreate cfg.groupName cfg.storageAccName "Storage"),
    pstep (.roleDefinitionsList "/" roleFilter),
    roleStep sa.id env,
    pstep .spLogin,
    pstep .userGetToken,
    pstep (.vaultsCreateOrUpdateVault cfg.groupName vault.name vault2),
    pstep (.setStorageAccount vault.properties.vaultUri sa.name sa.id
      "key1" "P30D")],
   vault2, sa⟩

/-- Function `updateStorageAccount` of the new variant (part_000 lines 361-378). -/
def updateStorageAccountNew (cfg : Config) (sa : StorageAccount) : Prog :=
  [pstep (.keysCreateKey "key2" "RSA"),
   pstep (.storageAccountsUpdateEncryption cfg.groupName sa.name
     "Microsoft.Keyvault" (some "key2"))]

/-- Function `updateStorageAccount` of the old variant (part_000 lines 100-115):
switch the active key to `key2`, then disable automatic regeneration. -/
def updateStorageAccountOld (vault : Vault) (sa : StorageAccount) : Prog :=
  [pstep (.kvUpdateStorageAccount vault.properties.vaultUri sa.name
     (some "key2") none),
   pstep (.kvUpdateStorageAccount vault.properties.vaultUri sa.name
     none (some false))]

/-- Function `regenerateStorageAccountKey` of the new variant (part_000 379-384). -/
def regenerateStorageAccountKeyNew (cfg : Config) (sa : StorageAccount) : Prog :=
  [pstep (.storageAccountsRegenerateKey cfg.groupName sa.name "key1")]

/-- Function `regenerateStorageAccountKey` of the old variant (part_000 117-121). -/
def regenerateStorageAccountKeyOld (vault : Vault) (sa : StorageAccount) : Prog :=
  [pstep (.kvRegenerateStorageAccountKey vault.properties.vaultUri sa.name
     "key1")]

/-- Function `getStorageAccounts` of the old variant (part_000 123-134). -/
def getStorageAccountsOld (vault : Vault) : Prog :=
  [pstep (.kvGetStorageAccounts vault.properties.vaultUri)]

/-- Function `createAccountSASDefinition` of the new variant (part_000 385-410):
issue an account SAS over the management plane, then exercise it with a
container creation and a blob upload. -/
def createAccountSASDefinitionNew (cfg : Config) (sa : StorageAccount) : Prog :=
  [pstep (.listAccountSAS cfg.groupName sa.name "acdlpruw"),
   pstep (.containerCreate "sample-container"),
   pstep (.blobUpload "sample-container" "blob1" "test data")]

/-- Function `createAccountSASDefinition` of the old variant (part_000 136-179):
register the SAS definition in the vault, read back the managed secret, then
exercise the token with a container creation and a blob upload.  (The SAS
template itself is computed locally with a placeholder key.) -/
def createAccountSASDefinitionOld (vault : Vault) (sa : StorageAccount)
    (env : RemoteEnv) : Prog :=
  [pstep (.setSasDefinition vault.properties.vaultUri sa.name "acctall"
     "account" "PT2H"),
   pstep (.getSecret env.sasSecretVaultName env.sasSecretName ""),
   pstep (.containerCreate "sample-container"),
   pstep (.blobUpload "sample-container" "blob1" "test data")]

/-- Function `createBlobSASDefinition` of the old variant (part_000 181-212). -/
def createBlobSASDefinitionOld (vault : Vault) (sa : StorageAccount)
    (env : RemoteEnv) : Prog :=
  [pstep (.setSasDefinition vault.properties.vaultUri sa.name "blobcontall"
     "service" "PT2H"),
   pstep (.getSecret env.blobSecretVaultName env.blobSecretName ""),
   pstep (.blobUpload "sample-container" "blob1" "test data")]

/-- Function `getSASDefinitions` of the old variant (part_000 214-223). -/
def getSASDefinitionsOld (vault : Vault) (sa : StorageAccount) : Prog :=
  [pstep (.kvGetSasDefinitions vault.properties.vaultUri sa.name)]

/-- Function `deleteStorageAccount` of the new variant (part_000 411-419): revert the
account's encryption key source to `Microsoft.Storage` via a management-plane
update.  Neither a storage-account deletion nor any vault operation. -/
def deleteStorageAccountNew (cfg : Config) (sa : StorageAccount) : Prog :=
  [pstep (.storageAccountsUpdateEncryption cfg.groupName sa.name
     "Microsoft.Storage" none)]

/-- Function `deleteStorageAccount` of the old variant (part_000 225-228): remove the
storage account from the vault's managed accounts. -/
def deleteStorageAccountOld (vault : Vault) (sa : StorageAccount) : Prog :=
  [pstep (.kvDeleteStorageAccount vault.properties.vaultUri sa.name)]

/-! ## The two `main` workflows -/

/-- The steps of the new variant's `main` after vault acquisition
(part_000 lines 426-439), in source order. -/
def mainNewSteps (cfg : Config) (vault : Vault) (env : RemoteEnv) : Prog :=
  let add := addStorageAccountNew cfg vault env
  add.prog
    ++ updateStorageAccountNew cfg add.account
    ++ regenerateStorageAccountKeyNew cfg add.account
    ++ createAccountSASDefinitionNew cfg add.account
    ++ deleteStorageAccountNew cfg add.account

/-- The steps of the old variant's `main` after vault acquisition
(part_000 lines 237-259), in source order. -/
def mainOldSteps (cfg : Config) (vault : Vault) (env : RemoteEnv) : Prog :=
  let add := addStorageAccountOld cfg vault env
  add.prog
    ++ updateStorageAccountOld vault add.account
    ++ regenerateStorageAccountKeyOld vault add.account
    ++ getStorageAccountsOld vault
    ++ createAccountSASDefinitionOld vault add.account env
    ++ createBlobSASDefinitionOld vault add.account env
    ++ getSASDefinitionsOld vault add.account
    ++ deleteStorageAccountOld vault add.account

/-- A `main` run: its remote-call program and the in-memory vault object as
it stands at the end of a successful run. -/
structure MainResult where
  prog : Prog
  finalVault : Vault

/-- Function `main` of the new variant (part_000 lines 420-442). -/
def mainNewRun (cfg : Config) (env : RemoteEnv) : MainResult :=
  let acq := getSampleVaultNew cfg env
  ⟨acq.prog ++ mainNewSteps acq.cfgAfter acq.vault env,
   (addStorageAccountNew acq.cfgAfter acq.vault env).vault⟩

/-- Function `main` of the old variant (part_000 lines 231-260). -/
def mainOldRun (cfg : Config) (env : RemoteEnv) : MainResult :=
  let acq := getSampleVaultOld cfg env
  ⟨acq.prog ++ mainOldSteps acq.cfgAfter acq.vault env,
   (addStorageAccountOld acq.cfgAfter acq.vault env).vault⟩

/-- The trace of remote calls a run of the new variant's `main` issues under
a given failure oracle. -/
def traceNew (cfg : Config) (env : RemoteEnv) (o : Nat → Option String) :
    List Call :=
  (runProg (mainNewRun cfg env).prog o 0).1

/-- The trace of remote calls a run of the old variant's `main` issues under
a given failure oracle. -/
def traceOld (cfg : Config) (env : RemoteEnv) (o : Nat → Option String) :
    List Call :=
  (runProg (mainOldRun cfg env).prog o 0).1

/-- Whole-program run of the new variant: module load (environment
validation, `config` construction) and then `main`. -/
inductive RunOutcome where
  | configFailure (e : JsError)
  | runFailure (code : String)
  | success
deriving DecidableEq, Repr

def programRunNew (e : EnvVars) (genStorageId : String) (env : RemoteEnv)
    (o : Nat → Option String) : List Call × RunOutcome :=
  match loadConfig e genStorageId with
  | .error err => ([], .configFailure err)
  | .ok cfg =>
    match runProg (mainNewRun cfg env).prog o 0 with
    | (t, .ok _) => (t, .success)
    | (t, .error code) => (t, .runFailure code)

def programRunOld (e : EnvVars) (genStorageId : String) (env : RemoteEnv)
    (o : Nat → Option String) : List Call × RunOutcome :=
  match loadConfigOld e genStorageId with
  | .error err => ([], .configFailure err)
  | .ok cfg =>
    match runProg (mainOldRun cfg env).prog o 0 with
    | (t, .ok _) => (t, .success)
    | (t, .error code) => (t, .runFailure code)

/-! ## Call classification -/

/-- Calls belonging to the vault-acquisition step: the lookup, the
resource-group bootstrap, and vault creation from parameters. -/
def isVaultAcquisitionCall : Call → Bool
  | .vaultsGet _ _ => true
  | .resourceGroupsCreateOrUpdate _ _ => true
  | .vaultsCreateOrUpdateParams _ _ _ => true
  | _ => false

def isStorageAccountCreateCall : Call → Bool
  | .storageAccountsCreate _ _ _ => true
  | _ => false

def isRoleAssignmentCall : Call → Bool
  | .roleAssignmentsCreate _ _ _ _ => true
  | _ => false

/-- Key-management calls: registration of the account with the vault,
vault-key creation and encryption binding, active-key changes, rotation. -/
def isKeyManagementCall : Call → Bool
  | .setStorageAccount _ _ _ _ _ => true
  | .kvUpdateStorageAccount _ _ _ _ => true
  | .kvRegenerateStorageAccountKey _ _ _ => true
  | .keysCreateKey _ _ => true
  | .storageAccountsUpdateEncryption _ _ _ _ => true
  | .storageAccountsRegenerateKey _ _ _ => true
  | _ => false

/-- SAS issuance: registering a SAS definition and reading its managed
secret (old variant), or issuing an account SAS (new variant). -/
def isSasIssuanceCall : Call → Bool
  | .setSasDefinition _ _ _ _ _ => true
  | .getSecret _ _ _ => true
  | .listAccountSAS _ _ _ => true
  | _ => false

def isDataPlaneWriteCall : Call → Bool
  | .containerCreate _ => true
  | .blobUpload _ _ _ => true
  | _ => false

/-- Vault create, push or delete: calls that change the vault resource
itself (its definition), as opposed to reading it or managing the storage
keys it holds. -/
def isVaultMutationCall : Call → Bool
  | .vaultsCreateOrUpdateParams _ _ _ => true
  | .vaultsCreateOrUpdateVault _ _ _ => true
  | .vaultsDelete _ _ => true
  | _ => false

/-- The vault create-or-update management operation (either payload shape):
what claim C5/C6 call "the vault create operation". -/
def isVaultCreateCall : Call → Bool
  | .vaultsCreateOrUpdateParams _ _ _ => true
  | .vaultsCreateOrUpdateVault _ _ _ => true
  | _ => false

def isStorageAccountDeleteCall : Call → Bool
  | .storageAccountsDelete _ _ => true
  | _ => false

/-! ## Temporal-ordering predicates over traces -/

/-- Every `p`-call precedes every `q`-call: no pair with a `q`-call strictly
before a `p`-call. -/
def CallsOrdered (p q : Call → Bool) (l : List Call) : Prop :=
  l.Pairwise (fun a b => ¬(q a = true ∧ p b = true))

/-- Executable check for `CallsOrdered`: scan the list, remembering whether a
`q`-call has occurred, and reject any later `p`-call. -/
def ordCheck (p q : Call → Bool) : Bool → List Call → Bool
  | _, [] => true
  | seenQ, c :: rest =>
    (!(seenQ && p c)) && ordCheck p q (seenQ || q c) rest

/-- Every data-plane write in the trace has some earlier SAS issuance. -/
def EachWritePrecededBySas (l : List Call) : Prop :=
  ∀ (j : Nat) (hj : j < l.length),
    isDataPlaneWriteCall (l.get ⟨j, hj⟩) = true →
    ∃ (i : Nat) (hi : i < l.length),
      i < j ∧ isSasIssuanceCall (l.get ⟨i, hi⟩) = true

/-- Executable check for `EachWritePrecededBySas`: scan the list remembering
whether a SAS issuance has occurred, and reject any write before the first
issuance. -/
def writesCovered : Bool → List Call → Bool
  | _, [] => true
  | seen, c :: rest =>
    if isDataPlaneWriteCall c then seen && writesCovered seen rest
    else writesCovered (seen || isSasIssuanceCall c) rest

/-- A successful outcome of an oracle answer at one step: the call succeeded
or raised an error code the step's surrounding code swallows. -/
def stepOk (st : PStep) (r : Option String) : Prop :=
  r = none ∨ ∃ code, r = some code ∧ st.recover code = true

/-! ## Concrete fixtures (used by witnesses and counterexamples) -/

def vault0 : Vault :=
  { name := "contosovault"
    properties :=
      { vaultUri := "https://contosovault.vault.azure.net"
        accessPolicies := [] } }

def sa0 : StorageAccount :=
  { name := "sa12345"
    id := "/subscriptions/sub-1/resourceGroups/azure-sample-group/providers/Microsoft.Storage/storageAccounts/sa12345"
    identityPrincipalId := "principal-0" }

def env0 : RemoteEnv :=
  { gotVault := vault0
    createdVault := vault0
    genVaultName := "kv789"
    storageAccount := sa0
    roleDefinitionId := "roledef-1"
    roleAssignmentName := "assign-1"
    userOid := "user-oid-1"
    sasSecretVaultName := "contosovault"
    sasSecretName := "sa12345-acctall"
    blobSecretVaultName := "contosovault"
    blobSecretName := "sa12345-blobcontall" }

/-- A configuration with a configured sample-vault name and no cached vault. -/
def cfg0 : Config :=
  { subscriptionId := "sub-1"
    tenantId := "tenant-1"
    clientId := "client-1"
    objectId := "oid-1"
    secret := "secret-1"
    azureLocation := "westus"
    groupName := "azure-sample-group"
    storageAccName := "sa12345"
    vaultName := some "contosovault"
    vault := none }

/-- The same configuration without a configured vault name. -/
def cfg0NoName : Config := { cfg0 with vaultName := none }

/-- An environment in which `AZURE_TENANT_ID` and `AZURE_CLIENT_SECRET` are
unset and the other required variables are set. -/
def envVars0 : EnvVars :=
  { subscriptionId := some "sub-1"
    tenantId := none
    clientId := some "client-1"
    clientOid := some "oid-1"
    clientSecret := none
    sampleVaultName := none
    location := none
    resourceGroup := none }

/-! ## Generic facts about `runProg` -/

/-- Whatever the oracle does, the calls actually issued are an initial
segment of the program's call list: the run never reorders, repeats or
invents calls. -/
theorem runProg_trace_isPre (p : Prog) (o : Nat → Option String) (k : Nat) :
    (runProg p o k).1 <+: progCalls p := by
  induction p generalizing k with
  | nil => exact ⟨[], rfl⟩
  | cons st rest ih =>
    show (runProg (st :: rest) o k).1 <+: st.call :: progCalls rest
    rw [runProg]
    cases o k with
    | none =>
      obtain ⟨r, hr⟩ := ih (k + 1)
      exact ⟨r, by simp [← hr]⟩
    | some code =>
      by_cases h : st.recover code
      · simp only [h, if_true]
        obtain ⟨r, hr⟩ := ih (k + 1)
        exact ⟨r, by simp [← hr]⟩
      · simp only [h, if_false]
        exact ⟨progCalls rest, rfl⟩

/-- If the oracle's answer at every position of the program is a success or
a recovered failure, the run issues every call and succeeds. -/
theorem runProg_complete (p : Prog) (o : Nat → Option String) (k : Nat)
    (h : ∀ i (hi : i < p.length), stepOk (p.get ⟨i, hi⟩) (o (k + i))) :
    runProg p o k = (progCalls p, .ok ()) := by
  induction p generalizing k with
  | nil => rfl
  | cons st rest ih =>
    have h0 := h 0 (by simp)
    have hrest : ∀ i (hi : i < rest.length),
        stepOk (rest.get ⟨i, hi⟩) (o (k + 1 + i)) := by
      intro i hi
      have := h (i + 1) (by simpa using Nat.succ_lt_succ hi)
      simpa [Nat.add_comm, Nat.add_assoc, Nat.add_left_comm] using this
    have htail := ih (k + 1) hrest
    rcases h0 with h0 | ⟨code, hc, hr⟩
    · have h0k : o k = none := by simpa using h0
      rw [runProg, h0k, htail]
      rfl
    · have hck : o k = some code := by simpa using hc
      have hrk : st.recover code = true := by simpa using hr
      rw [runProg, hck]
      simp only [hrk, if_true, htail]
      rfl

/-- If every oracle answer before position `j` is a success or recovered
failure, and the answer at `j` is an error code the step at `j` does not
recover, the run issues exactly the first `j + 1` calls and stops with that
error. -/
theorem runProg_abort (p : Prog) (o : Nat → Option String) (k j : Nat)
    (hj : j < p.length) (code : String)
    (hbefore : ∀ i (hi : i < j), stepOk (p.get ⟨i, Nat.lt_trans hi hj⟩) (o (k + i)))
    (hfail : o (k + j) = some code)
    (hnorec : (p.get ⟨j, hj⟩).recover code = false) :
    runProg p o k = ((progCalls p).take (j + 1), .error code) := by
  induction p generalizing k j with
  | nil => exact absurd hj (by simp)
  | cons st rest ih =>
    cases j with
    | zero =>
      have hk : o k = some code := by simpa using hfail
      have hr : st.recover code = false := by simpa using hnorec
      rw [runProg, hk]
      simp [hr, progCalls]
    | succ j2 =>
      have hj2 : j2 < rest.length := Nat.lt_of_succ_lt_succ hj
      have h0 := hbefore 0 (Nat.succ_pos _)
      have hbefore2 : ∀ i (hi : i < j2),
          stepOk (rest.get ⟨i, Nat.lt_trans hi hj2⟩) (o (k + 1 + i)) := by
        intro i hi
        have := hbefore (i + 1) (Nat.succ_lt_succ hi)
        simpa [Nat.add_comm, Nat.add_assoc, Nat.add_left_comm] using this
      have hfail2 : o (k + 1 + j2) = some code := by
        simpa [Nat.add_comm, Nat.add_assoc, Nat.add_left_comm] using hfail
      have hnorec2 : (rest.get ⟨j2, hj2⟩).recover code = false := by
        simpa using hnorec
      have htail := ih (k + 1) j2 hj2 hbefore2 hfail2 hnorec2
      rcases h0 with h0 | ⟨code2, hc, hr⟩
      · have h0k : o k = none := by simpa using h0
        rw [runProg, h0k, htail]
        simp [progCalls]
      · have hck : o k = some code2 := by simpa using hc
        have hrk : st.recover code2 = true := by simpa using hr
        rw [runProg, hck]
        simp only [hrk, if_true, htail]
        simp [progCalls]

/-- Specialisation: a single non-recovered failure at position `k` truncates
the run to the first `k + 1` calls and propagates the error. -/
theorem runProg_singleFail (p : Prog) (k : Nat) (code : String)
    (hk : k < p.length) (hnorec : (p.get ⟨k, hk⟩).recover code = false) :
    runProg p (singleFail k code) 0 =
      ((progCalls p).take (k + 1), .error code) := by
  refine runProg_abort p (singleFail k code) 0 k hk code ?_ ?_ hnorec
  · intro i hi
    left
    simp [singleFail, Nat.ne_of_lt hi]
  · simp [singleFail]

/-- Specialisation: a single failure at position `k` whose code the step at
`k` recovers leaves the run complete and successful. -/
theorem runProg_singleRecovered (p : Prog) (k : Nat) (code : String)
    (hk : k < p.length) (hrec : (p.get ⟨k, hk⟩).recover code = true) :
    runProg p (singleFail k code) 0 = (progCalls p, .ok ()) := by
  refine runProg_complete p (singleFail k code) 0 ?_
  intro i hi
  by_cases h : i = k
  · subst h
    exact Or.inr ⟨code, by simp [singleFail], hrec⟩
  · left
    simp [singleFail, h]

/-! ## Soundness of the ordering checkers -/

theorem ordCheck_sound (p q : Call → Bool) (seenQ : Bool) (l : List Call)
    (h : ordCheck p q seenQ l = true) :
    l.Pairwise (fun a b => ¬(q a = true ∧ p b = true)) ∧
      (seenQ = true → ∀ b ∈ l, p b = false) := by
  induction l generalizing seenQ with
  | nil => exact ⟨List.Pairwise.nil, fun _ _ h => absurd h (by simp)⟩
  | cons c rest ih =>
    rw [ordCheck, Bool.and_eq_true] at h
    obtain ⟨hhead, htail⟩ := h
    obtain ⟨hpw, hseen⟩ := ih _ htail
    constructor
    · refine List.Pairwise.cons ?_ hpw
      intro b hb hcon
      obtain ⟨hqc, hpb⟩ := hcon
      have : p b = false := hseen (by simp [hqc]) b hb
      simp [this] at hpb
    · intro hs b hb
      rcases List.mem_cons.mp hb with rfl | hb2
      · by_cases hpc : p b
        · simp [hs, hpc] at hhead
        · simpa using hpc
      · exact hseen (by simp [hs]) b hb2

/-- Derive `CallsOrdered` from a successful scan with no `q`-call seen yet. -/
theorem callsOrdered_of_check (p q : Call → Bool) (l : List Call)
    (h : ordCheck p q false l = true) : CallsOrdered p q l :=
  (ordCheck_sound p q false l h).1

theorem writesCovered_sound (l : List Call) (seen : Bool)
    (h : writesCovered seen l = true) :
    ∀ (j : Nat) (hj : j < l.length),
      isDataPlaneWriteCall (l.get ⟨j, hj⟩) = true →
      (∃ (i : Nat) (hi : i < l.length),
        i < j ∧ isSasIssuanceCall (l.get ⟨i, hi⟩) = true) ∨ seen = true := by
  induction l generalizing seen with
  | nil => intro j hj; exact absurd hj (by simp)
  | cons c rest ih =>
    intro j hj hw
    rw [writesCovered] at h
    cases j with
    | zero =>
      have hc : isDataPlaneWriteCall c = true := hw
      rw [if_pos hc, Bool.and_eq_true] at h
      exact Or.inr h.1
    | succ j2 =>
      have hj2 : j2 < rest.length := Nat.lt_of_succ_lt_succ hj
      have hw2 : isDataPlaneWriteCall (rest.get ⟨j2, hj2⟩) = true := hw
      by_cases hc : isDataPlaneWriteCall c = true
      · rw [if_pos hc, Bool.and_eq_true] at h
        rcases ih seen h.2 j2 hj2 hw2 with ⟨i, hi, hij, hsas⟩ | hs
        · exact Or.inl ⟨i + 1, Nat.succ_lt_succ hi, Nat.succ_lt_succ hij, hsas⟩
        · exact Or.inr hs
      · rw [if_neg hc] at h
        rcases ih (seen || isSasIssuanceCall c) h j2 hj2 hw2 with
          ⟨i, hi, hij, hsas⟩ | hs
        · exact Or.inl ⟨i + 1, Nat.succ_lt_succ hi, Nat.succ_lt_succ hij, hsas⟩
        · simp only [Bool.or_eq_true] at hs
          rcases hs with h1 | h2
          · exact Or.inr h1
          · exact Or.inl ⟨0, Nat.succ_pos _, Nat.succ_pos _, h2⟩

/-- Derive `EachWritePrecededBySas` from a successful scan with no issuance seen
yet. -/
theorem eachWrite_of_check (l : List Call) (h : writesCovered false l = true) :
    EachWritePrecededBySas l := by
  intro j hj hw
  rcases writesCovered_sound l false h j hj hw with hex | hcon
  · exact hex
  · exact absurd hcon (by simp)

/-! ## Ordering properties restrict to initial segments -/

theorem callsOrdered_of_isPre {p q : Call → Bool} {t l : List Call}
    (h : t <+: l) (hp : CallsOrdered p q l) : CallsOrdered p q t := by
  obtain ⟨r, rfl⟩ := h
  exact (List.pairwise_append.mp hp).1

theorem eachWrite_of_isPre {t l : List Call} (h : t <+: l)
    (hp : EachWritePrecededBySas l) : EachWritePrecededBySas t := by
  obtain ⟨r, rfl⟩ := h
  intro j hj hw
  have hjl : j < (t ++ r).length := by
    simp only [List.length_append]
    omega
  have hget : (t ++ r).get ⟨j, hjl⟩ = t.get ⟨j, hj⟩ := List.get_append j hj
  rcases hp j hjl (by rw [hget]; exact hw) with ⟨i, hi, hij, hsas⟩
  have hit : i < t.length := Nat.lt_trans hij hj
  refine ⟨i, hit, hij, ?_⟩
  have : (t ++ r).get ⟨i, hi⟩ = t.get ⟨i, hit⟩ := List.get_append i hit
  rw [← this]
  exact hsas

/-! ## Claim theorems -/

/-- C1: In the role-grant step, a `createRoleAssignment` failure with error
code `RoleAssignmentExists` is treated as success — the run swallows it,
issues every remaining call of `addStorageAccount`, and returns
successfully — while a failure with any other code propagates: the run stops
right after the role-assignment call (position 2 in the new variant's
`addStorageAccount`, position 3 in the old variant's) with that error. -/
theorem roleAssignmentErrorPolicy (cfg : Config) (vault : Vault)
    (env : RemoteEnv) (code : String) :
    (code = "RoleAssignmentExists" →
      runProg (addStorageAccountNew cfg vault env).prog (singleFail 2 code) 0 =
        (progCalls (addStorageAccountNew cfg vault env).prog, .ok ()) ∧
      runProg (addStorageAccountOld cfg vault env).prog (singleFail 3 code) 0 =
        (progCalls (addStorageAccountOld cfg vault env).prog, .ok ())) ∧
    (code ≠ "RoleAssignmentExists" →
      runProg (addStorageAccountNew cfg vault env).prog (singleFail 2 code) 0 =
        ((progCalls (addStorageAccountNew cfg vault env).prog).take 3,
          .error code) ∧
      runProg (addStorageAccountOld cfg vault env).prog (singleFail 3 code) 0 =
        ((progCalls (addStorageAccountOld cfg vault env).prog).take 4,
          .error code)) := by
  constructor
  · intro hc
    subst hc
    refine ⟨runProg_singleRecovered _ 2 _ (by simp [addStorageAccountNew]) ?_,
            runProg_singleRecovered _ 3 _ (by simp [addStorageAccountOld]) ?_⟩
    · show ("RoleAssignmentExists" == "RoleAssignmentExists") = true
      rfl
    · show ("RoleAssignmentExists" == "RoleAssignmentExists") = true
      rfl
  · intro hc
    refine ⟨runProg_singleFail _ 2 _ (by simp [addStorageAccountNew]) ?_,
            runProg_singleFail _ 3 _ (by simp [addStorageAccountOld]) ?_⟩
    · show (code == "RoleAssignmentExists") = false
      simp [hc]
    · show (code == "RoleAssignmentExists") = false
      simp [hc]

/-- Witness for C1 at a concrete configuration: the swallowed
`RoleAssignmentExists` conflict completes the new variant's
`addStorageAccount`, and a `Forbidden` failure truncates it after the
role-assignment call. -/
theorem roleAssignmentErrorPolicy_witness :
    runProg (addStorageAccountNew cfg0 vault0 env0).prog
        (singleFail 2 "RoleAssignmentExists") 0 =
      (progCalls (addStorageAccountNew cfg0 vault0 env0).prog, .ok ()) ∧
    runProg (addStorageAccountNew cfg0 vault0 env0).prog
        (singleFail 2 "Forbidden") 0 =
      ((progCalls (addStorageAccountNew cfg0 vault0 env0).prog).take 3,
        .error "Forbidden") :=
  ⟨((roleAssignmentErrorPolicy cfg0 vault0 env0 "RoleAssignmentExists").1
      rfl).1,
   ((roleAssignmentErrorPolicy cfg0 vault0 env0 "Forbidden").2
      (by decide)).1⟩

/-- C9: the teardown steps. The new variant issues exactly one call, a
management-plane update whose patch reverts the account's encryption key
source to the account-managed `Microsoft.Storage` (no `keyVaultProperties`);
the old variant issues exactly one call, the vault-side removal of the
storage account's registration. Neither issues a storage-account deletion,
nor any call that creates, rewrites or deletes the vault resource itself. -/
theorem teardownFrame (cfg : Config) (vault : Vault) (sa : StorageAccount) :
    progCalls (deleteStorageAccountNew cfg sa) =
      [Call.storageAccountsUpdateEncryption cfg.groupName sa.name
        "Microsoft.Storage" none] ∧
    progCalls (deleteStorageAccountOld vault sa) =
      [Call.kvDeleteStorageAccount vault.properties.vaultUri sa.name] ∧
    (progCalls (deleteStorageAccountNew cfg sa)).all
      (fun c => !isVaultMutationCall c && !isStorageAccountDeleteCall c)
      = true ∧
    (progCalls (deleteStorageAccountOld vault sa)).all
      (fun c => !isVaultMutationCall c && !isStorageAccountDeleteCall c)
      = true :=
  ⟨rfl, rfl, rfl, rfl⟩

/-- C5: with no cached vault and a configured vault name, vault acquisition
issues the vault lookup (preceded, in the old variant, by the
service-principal login) and never the vault create-or-update operation. -/
theorem vaultNameConfiguredLookupOnly (cfg : Config) (env : RemoteEnv)
    (vn : String) (h1 : cfg.vault = none) (h2 : cfg.vaultName = some vn) :
    progCalls (getSampleVaultNew cfg env).prog =
      [Call.vaultsGet cfg.groupName vn] ∧
    progCalls (getSampleVaultOld cfg env).prog =
      [Call.spLogin, Call.vaultsGet cfg.groupName vn] ∧
    (progCalls (getSampleVaultNew cfg env).prog).all
      (fun c => !isVaultCreateCall c) = true ∧
    (progCalls (getSampleVaultOld cfg env).prog).all
      (fun c => !isVaultCreateCall c) = true := by
  refine ⟨?_, ?_, ?_, ?_⟩ <;>
    simp [getSampleVaultNew, getSampleVaultOld, h1, h2, progCalls, pstep,
      isVaultCreateCall]

/-- Witness for C5 at the concrete configured-name configuration. -/
theorem vaultNameConfiguredLookupOnly_witness :
    progCalls (getSampleVaultNew cfg0 env0).prog =
      [Call.vaultsGet cfg0.groupName "contosovault"] ∧
    (progCalls (getSampleVaultOld cfg0 env0).prog).all
      (fun c => !isVaultCreateCall c) = true :=
  ⟨(vaultNameConfiguredLookupOnly cfg0 env0 "contosovault" rfl rfl).1,
   (vaultNameConfiguredLookupOnly cfg0 env0 "contosovault" rfl rfl).2.2.2⟩

/-- C6: with no cached vault and no configured vault name, vault acquisition
issues the vault create-or-update operation exactly once, with the freshly
generated `random_id()` name, after ensuring the resource group exists. -/
theorem noVaultNameCreatesOnce (cfg : Config) (env : RemoteEnv)
    (h1 : cfg.vault = none) (h2 : cfg.vaultName = none) :
    progCalls (getSampleVaultNew cfg env).prog =
      [Call.resourceGroupsCreateOrUpdate cfg.groupName cfg.azureLocation,
       Call.vaultsCreateOrUpdateParams cfg.groupName env.genVaultName
         [defaultPolicyNew cfg]] ∧
    progCalls (getSampleVaultOld cfg env).prog =
      [Call.spLogin,
       Call.resourceGroupsCreateOrUpdate cfg.groupName cfg.azureLocation,
       Call.vaultsCreateOrUpdateParams cfg.groupName env.genVaultName
         [defaultPolicyOld cfg]] ∧
    ((progCalls (getSampleVaultNew cfg env).prog).filter
      isVaultCreateCall).length = 1 ∧
    ((progCalls (getSampleVaultOld cfg env).prog).filter
      isVaultCreateCall).length = 1 := by
  refine ⟨?_, ?_, ?_, ?_⟩ <;>
    simp [getSampleVaultNew, getSampleVaultOld, h1, h2, progCalls, pstep,
      isVaultCreateCall]

/-- Witness for C6 at the concrete no-configured-name configuration. -/
theorem noVaultNameCreatesOnce_witness :
    ((progCalls (getSampleVaultNew cfg0NoName env0).prog).filter
      isVaultCreateCall).length = 1 ∧
    ((progCalls (getSampleVaultOld cfg0NoName env0).prog).filter
      isVaultCreateCall).length = 1 :=
  ⟨(noVaultNameCreatesOnce cfg0NoName env0 rfl rfl).2.2.1,
   (noVaultNameCreatesOnce cfg0NoName env0 rfl rfl).2.2.2⟩

/-- C10: vault acquisition is idempotent within a run. After a first call to
`_getSampleVault` (whatever branch it took), the utility module's `config`
caches the vault; a second call — under any remote environment — issues no
remote call at all, returns the same vault, and leaves the configuration
unchanged. Holds for both utility-module variants. -/
theorem vaultAcquisitionCached (cfg : Config) (env env2 : RemoteEnv) :
    (getSampleVaultNew (getSampleVaultNew cfg env).cfgAfter env2).prog
      = [] ∧
    (getSampleVaultNew (getSampleVaultNew cfg env).cfgAfter env2).vault
      = (getSampleVaultNew cfg env).vault ∧
    (getSampleVaultNew (getSampleVaultNew cfg env).cfgAfter env2).cfgAfter
      = (getSampleVaultNew cfg env).cfgAfter ∧
    (getSampleVaultOld (getSampleVaultOld cfg env).cfgAfter env2).prog
      = [] ∧
    (getSampleVaultOld (getSampleVaultOld cfg env).cfgAfter env2).vault
      = (getSampleVaultOld cfg env).vault ∧
    (getSampleVaultOld (getSampleVaultOld cfg env).cfgAfter env2).cfgAfter
      = (getSampleVaultOld cfg env).cfgAfter := by
  rcases h1 : cfg.vault with _ | v <;> rcases h2 : cfg.vaultName with _ | vn <;>
    simp [getSampleVaultNew, getSampleVaultOld, h1, h2]

/-- C8: the only mutation of the in-memory vault's access-policy list in
either workflow variant is the single append performed by
`addStorageAccount`, and the same SDK push that follows carries exactly the
appended vault. Consequently the original entries survive at their
positions (the old list is an initial segment of the new one) and the list
grows by exactly one; the vault at the end of a whole `main` run is the
acquired vault with that one entry appended. -/
theorem accessPolicyAppendOnly (cfg : Config) (vault : Vault)
    (env : RemoteEnv) :
    (addStorageAccountNew cfg vault env).vault.properties.accessPolicies
      = vault.properties.accessPolicies ++ [accessPolicyEntryNew cfg env] ∧
    (addStorageAccountOld cfg vault env).vault.properties.accessPolicies
      = vault.properties.accessPolicies ++ [accessPolicyEntryOld cfg env] ∧
    Call.vaultsCreateOrUpdateVault cfg.groupName vault.name
        (addStorageAccountNew cfg vault env).vault
      ∈ progCalls (addStorageAccountNew cfg vault env).prog ∧
    Call.vaultsCreateOrUpdateVault cfg.groupName vault.name
        (addStorageAccountOld cfg vault env).vault
      ∈ progCalls (addStorageAccountOld cfg vault env).prog ∧
    vault.properties.accessPolicies <+:
      (addStorageAccountNew cfg vault env).vault.properties.accessPolicies ∧
    vault.properties.accessPolicies <+:
      (addStorageAccountOld cfg vault env).vault.properties.accessPolicies ∧
    (addStorageAccountNew cfg vault env).vault.properties.accessPolicies.length
      = vault.properties.accessPolicies.length + 1 ∧
    (addStorageAccountOld cfg vault env).vault.properties.accessPolicies.length
      = vault.properties.accessPolicies.length + 1 ∧
    (mainNewRun cfg env).finalVault
      = pushPolicy (getSampleVaultNew cfg env).vault
          (accessPolicyEntryNew cfg env) ∧
    (mainOldRun cfg env).finalVault
      = pushPolicy (getSampleVaultOld cfg env).vault
          (accessPolicyEntryOld cfg env) := by
  refine ⟨rfl, rfl, ?_, ?_, ⟨[accessPolicyEntryNew cfg env], rfl⟩,
    ⟨[accessPolicyEntryOld cfg env], rfl⟩, by simp [addStorageAccountNew,
      pushPolicy], by simp [addStorageAccountOld, pushPolicy], ?_, ?_⟩
  · simp [addStorageAccountNew, progCalls, pstep, roleStep]
  · simp [addStorageAccountOld, progCalls, pstep, roleStep]
  · rcases h1 : cfg.vault with _ | v <;>
      rcases h2 : cfg.vaultName with _ | vn <;>
      simp [mainNewRun, getSampleVaultNew, addStorageAccountNew,
        accessPolicyEntryNew, h1, h2]
  · rcases h1 : cfg.vault with _ | v <;>
      rcases h2 : cfg.vaultName with _ | vn <;>
      simp [mainOldRun, getSampleVaultOld, addStorageAccountOld,
        accessPolicyEntryOld, h1, h2]

/-- C2 evaluated at a failing input. With `AZURE_TENANT_ID` and
`AZURE_CLIENT_SECRET` unset, both utility modules fail at load time, before
any remote call is issued (the call trace is empty). The new module's
failure enumerates both missing names at once, as the claim requires; the
old module (src/unnamed/part_002) instead raises
`ReferenceError: util is not defined`, because its error branch calls
`util.format` without ever requiring `util` — so its failure names no
missing variable at all. -/
theorem envValidationDivergence :
    missingEnvs envVars0 = ["AZURE_TENANT_ID", "AZURE_CLIENT_SECRET"] ∧
    programRunNew envVars0 "12345" env0 noFail =
      ([], .configFailure (.error
        ("please set/export the following environment variables: " ++
         "AZURE_TENANT_ID,AZURE_CLIENT_SECRET"))) ∧
    programRunOld envVars0 "12345" env0 noFail =
      ([], .configFailure (.referenceError "util is not defined")) := by
  refine ⟨rfl, ?_, ?_⟩ <;> rfl

/-- Helper (not itself a claim): in the new variant's whole `main` program,
the only step that recovers from any error code is the role-assignment
step, and the only code it recovers from is `RoleAssignmentExists`. -/
theorem mainNew_recover_only_roleExists (cfg : Config) (env : RemoteEnv) :
    ∀ st ∈ (mainNewRun cfg env).prog, ∀ code, st.recover code = true →
      code = "RoleAssignmentExists" ∧ isRoleAssignmentCall st.call = true := by
  intro st hst code hrec
  rcases h1 : cfg.vault with _ | v <;> rcases h2 : cfg.vaultName with _ | vn <;>
    simp only [mainNewRun, getSampleVaultNew, mainNewSteps,
      addStorageAccountNew, updateStorageAccountNew,
      regenerateStorageAccountKeyNew, createAccountSASDefinitionNew,
      deleteStorageAccountNew, h1, h2, List.append_assoc, List.cons_append,
      List.nil_append, List.mem_cons, List.mem_singleton] at hst <;>
    (repeat' (rcases hst with rfl | hst)) <;>
    first
      | simp [pstep] at hrec
      | exact ⟨by simpa [roleStep] using hrec, rfl⟩

/-- Helper (not itself a claim): same statement for the old variant. -/
theorem mainOld_recover_only_roleExists (cfg : Config) (env : RemoteEnv) :
    ∀ st ∈ (mainOldRun cfg env).prog, ∀ code, st.recover code = true →
      code = "RoleAssignmentExists" ∧ isRoleAssignmentCall st.call = true := by
  intro st hst code hrec
  rcases h1 : cfg.vault with _ | v <;> rcases h2 : cfg.vaultName with _ | vn <;>
    simp only [mainOldRun, getSampleVaultOld, mainOldSteps,
      addStorageAccountOld, updateStorageAccountOld,
      regenerateStorageAccountKeyOld, getStorageAccountsOld,
      createAccountSASDefinitionOld, createBlobSASDefinitionOld,
      getSASDefinitionsOld, deleteStorageAccountOld, h1, h2,
      List.append_assoc, List.cons_append, List.nil_append, List.mem_cons,
      List.mem_singleton] at hst <;>
    (repeat' (rcases hst with rfl | hst)) <;>
    first
      | simp [pstep] at hrec
      | exact ⟨by simpa [roleStep] using hrec, rfl⟩

/-- C4: in either variant, a failure at any step whose surrounding code does
not recover the raised code (i.e. anything but the role-assignment
`RoleAssignmentExists` conflict — the last two conjuncts show those are the
only recovered exceptions anywhere in either `main`) stops the run at once:
the calls issued are exactly the first `k + 1` of the program — steps
`1..k` ran once each, the failing call ran once, no later step's capability
was invoked and no compensating call was issued — and the error propagates
as the run's outcome. -/
theorem failureAbortsImmediately (cfg : Config) (env : RemoteEnv) (k : Nat)
    (code : String) :
    (∀ (hk : k < (mainNewRun cfg env).prog.length),
      ((mainNewRun cfg env).prog.get ⟨k, hk⟩).recover code = false →
      runProg (mainNewRun cfg env).prog (singleFail k code) 0 =
        ((progCalls (mainNewRun cfg env).prog).take (k + 1),
          .error code)) ∧
    (∀ (hk : k < (mainOldRun cfg env).prog.length),
      ((mainOldRun cfg env).prog.get ⟨k, hk⟩).recover code = false →
      runProg (mainOldRun cfg env).prog (singleFail k code) 0 =
        ((progCalls (mainOldRun cfg env).prog).take (k + 1),
          .error code)) ∧
    (∀ st ∈ (mainNewRun cfg env).prog, ∀ c2, st.recover c2 = true →
      c2 = "RoleAssignmentExists" ∧ isRoleAssignmentCall st.call = true) ∧
    (∀ st ∈ (mainOldRun cfg env).prog, ∀ c2, st.recover c2 = true →
      c2 = "RoleAssignmentExists" ∧ isRoleAssignmentCall st.call = true) :=
  ⟨fun hk h => runProg_singleFail _ k code hk h,
   fun hk h => runProg_singleFail _ k code hk h,
   mainNew_recover_only_roleExists cfg env,
   mainOld_recover_only_roleExists cfg env⟩

/-- Witness for C4: a `InternalServerError` failure at position 5 of the new
variant's `main` (the `key1` vault-key creation, with a configured vault
name) truncates the run to the first six calls and propagates the error. -/
theorem failureAbortsImmediately_witness :
    runProg (mainNewRun cfg0 env0).prog (singleFail 5 "InternalServerError") 0
      = ((progCalls (mainNewRun cfg0 env0).prog).take 6,
          .error "InternalServerError") :=
  (failureAbortsImmediately cfg0 env0 5 "InternalServerError").1
    (by decide) (by decide)

/-- Helper (not itself a claim): ordering facts about the new variant's full
call list: vault acquisition precedes storage-account creation, role
assignment precedes every key-management call, SAS issuance precedes every
data-plane write, and every write has an earlier issuance. -/
theorem mainNew_order_full (cfg : Config) (env : RemoteEnv) :
    CallsOrdered isVaultAcquisitionCall isStorageAccountCreateCall
      (progCalls (mainNewRun cfg env).prog) ∧
    CallsOrdered isRoleAssignmentCall isKeyManagementCall
      (progCalls (mainNewRun cfg env).prog) ∧
    CallsOrdered isSasIssuanceCall isDataPlaneWriteCall
      (progCalls (mainNewRun cfg env).prog) ∧
    EachWritePrecededBySas (progCalls (mainNewRun cfg env).prog) := by
  rcases h1 : cfg.vault with _ | v <;> rcases h2 : cfg.vaultName with _ | vn <;>
    refine ⟨callsOrdered_of_check _ _ _ ?_, callsOrdered_of_check _ _ _ ?_,
      callsOrdered_of_check _ _ _ ?_, eachWrite_of_check _ ?_⟩ <;>
    simp only [mainNewRun, getSampleVaultNew, mainNewSteps, h1, h2] <;> rfl

/-- Helper (not itself a claim): ordering facts about the old variant's full
call list. The list does NOT satisfy the global SAS-before-write ordering
(see `sasIssuanceOrderingViolated`); what does hold is that vault
acquisition precedes storage-account creation, role assignment precedes
every key-management call, and every data-plane write has an earlier SAS
issuance. -/
theorem mainOld_order_full (cfg : Config) (env : RemoteEnv) :
    CallsOrdered isVaultAcquisitionCall isStorageAccountCreateCall
      (progCalls (mainOldRun cfg env).prog) ∧
    CallsOrdered isRoleAssignmentCall isKeyManagementCall
      (progCalls (mainOldRun cfg env).prog) ∧
    EachWritePrecededBySas (progCalls (mainOldRun cfg env).prog) := by
  rcases h1 : cfg.vault with _ | v <;> rcases h2 : cfg.vaultName with _ | vn <;>
    refine ⟨callsOrdered_of_check _ _ _ ?_, callsOrdered_of_check _ _ _ ?_,
      eachWrite_of_check _ ?_⟩ <;>
    simp only [mainOldRun, getSampleVaultOld, mainOldSteps, h1, h2] <;> rfl

/-- C3 counterexample: the step-order claim, as stated, is false on the old
variant. In a fully successful run its `createBlobSASDefinition` step issues
a SAS definition AFTER `createAccountSASDefinition` has already created a
container and uploaded a blob, so it is not the case that SAS issuance
completes before any data-plane write is attempted. -/
theorem sasIssuanceOrderingViolated :
    ¬ CallsOrdered isSasIssuanceCall isDataPlaneWriteCall
        (traceOld cfg0 env0 noFail) := by
  unfold CallsOrdered
  decide

/-- C3 (amended): for every configuration, remote environment and failure
oracle, in both variants vault acquisition completes before storage-account
creation begins and the role assignment completes before any vault-mediated
key-management call. For SAS issuance the new variant satisfies the global
ordering (all issuance precedes all data-plane writes); in both variants
every data-plane write is preceded by an earlier SAS issuance (the one that
produced the token it uses), but in the old variant the blob-SAS issuance
happens after the account-SAS step's data-plane writes, so the global
ordering holds only per SAS-definition step, not across them. -/
theorem workflowStepOrder (cfg : Config) (env : RemoteEnv)
    (o : Nat → Option String) :
    CallsOrdered isVaultAcquisitionCall isStorageAccountCreateCall
      (traceNew cfg env o) ∧
    CallsOrdered isVaultAcquisitionCall isStorageAccountCreateCall
      (traceOld cfg env o) ∧
    CallsOrdered isRoleAssignmentCall isKeyManagementCall
      (traceNew cfg env o) ∧
    CallsOrdered isRoleAssignmentCall isKeyManagementCall
      (traceOld cfg env o) ∧
    CallsOrdered isSasIssuanceCall isDataPlaneWriteCall
      (traceNew cfg env o) ∧
    EachWritePrecededBySas (traceNew cfg env o) ∧
    EachWritePrecededBySas (traceOld cfg env o) := by
  have hn := mainNew_order_full cfg env
  have ho := mainOld_order_full cfg env
  have hpn : traceNew cfg env o <+: progCalls (mainNewRun cfg env).prog :=
    runProg_trace_isPre _ _ _
  have hpo : traceOld cfg env o <+: progCalls (mainOldRun cfg env).prog :=
    runProg_trace_isPre _ _ _
  exact ⟨callsOrdered_of_isPre hpn hn.1, callsOrdered_of_isPre hpo ho.1,
    callsOrdered_of_isPre hpn hn.2.1, callsOrdered_of_isPre hpo ho.2.1,
    callsOrdered_of_isPre hpn hn.2.2.1,
    eachWrite_of_isPre hpn hn.2.2.2, eachWrite_of_isPre hpo ho.2.2⟩

end KVStorageSample
